import Mathlib

/-!
Verification of `streamlit/cli.py` (command dispatcher): option-definition
translation to CLI flags, CLI config override application, run-target
resolution (local path vs URL), remote fetch error handling, temporary
directory lifecycle, run orchestration, and deprecated-command forwarding.
-/

namespace StreamlitCli

/-- Embedding of Python `s.replace(a, b)` for a single-character pattern:
every occurrence of the character `a` is replaced by `b` (this is
`String.map`, written on the character list so that it reduces). -/
def replaceChar (a b : Char) (s : String) : String :=
  ⟨s.data.map fun c => if c = a then b else c⟩

/-- One configuration option definition from the option registry
(`streamlit.config`), as read by `_convert_config_option_to_click_option`:
key, description, deprecation metadata.  The value type is kept abstract. -/
structure ConfigOption where
  key : String
  description : String
  deprecated : Bool
  deprecation_text : String
  deprecation_date : String

/-- The click-option specification produced by the translator. -/
structure ClickOption where
  param : String
  description : String
  option : String
  envvar : String

/-- Embedding of `_convert_config_option_to_click_option` (cli.py:122-139):
flag name `--{key}`, destination parameter `key.replace(".", "_")`, help text
augmented for deprecated options, envvar `STREAMLIT_CONFIG_{param.upper()}`. -/
def _convert_config_option_to_click_option (config_option : ConfigOption) : ClickOption :=
  let option := "--" ++ config_option.key
  let param := replaceChar '.' '_' config_option.key
  let description :=
    if config_option.deprecated then
      config_option.description ++ "\n " ++ config_option.deprecation_text
        ++ " - " ++ config_option.deprecation_date
    else
      config_option.description
  let envvar := "STREAMLIT_CONFIG_" ++ param.toUpper
  { param := param, description := description, option := option, envvar := envvar }

/-- The live configuration store: a map from dotted option key to the stored
value together with its provenance tag ("where it was set from"). -/
def ConfigStore (V : Type) : Type := String → Option (V × String)

/-- Modelled from the spec: `streamlit.config._set_option` (the configuration
store is an external collaborator, `streamlit/config.py` is not part of this
core); per §3/§4.3 it records the value for the dotted key together with its
provenance tag, leaving all other keys untouched. -/
def _set_option {V : Type} (store : ConfigStore V) (key : String) (value : V)
    (where_defined : String) : ConfigStore V :=
  fun k => if k = key then some (value, where_defined) else store k

/-- Embedding of `_apply_config_options_from_cli` (cli.py:157-172): iterate the
parsed-flag mapping `kwargs`; for each entry whose value is not `None`,
translate the destination parameter back to the dotted key
(`config_option.replace("_", ".")`) and call `_set_option` with provenance
`"cli call option"`. -/
def _apply_config_options_from_cli {V : Type} (kwargs : List (String × Option V))
    (store : ConfigStore V) : ConfigStore V :=
  kwargs.foldl
    (fun st p =>
      match p.2 with
      | some v => _set_option st (replaceChar '_' '.' p.1) v "cli call option"
      | none => st)
    store

/-- Embedding of Python `path.strip('/')`: remove leading and trailing `/`
characters. -/
def stripSlashes (s : String) : String :=
  ⟨((s.data.dropWhile (fun c => c = '/')).reverse.dropWhile (fun c => c = '/')).reverse⟩

/-- Embedding of Python `s.rsplit('/', 1)[-1]`: the substring after the last
`/` (the whole string when it has no `/`). -/
def lastSegment (s : String) : String :=
  ⟨(s.data.reverse.takeWhile (fun c => c ≠ '/')).reverse⟩

/-- Helper for `urlparsePath`: drop everything up to and including the first
`://` separator. -/
def afterSchemeSep : List Char → Option (List Char)
  | [] => none
  | ':' :: '/' :: '/' :: rest => some rest
  | _ :: rest => afterSchemeSep rest

/-- Embedding of `urllib.parse.urlparse(target).path` for absolute URLs of the
form `scheme://netloc/path...` (the only shape reaching this code path, since
`validators.url` classified the target as a URL): the path component starts at
the first `/` after the netloc and ends before the first `?` or `#`.  A string
without a `://` separator parses with the whole string as its path. -/
def urlparsePath (url : String) : String :=
  match afterSchemeSep url.data with
  | some rest =>
      ⟨(rest.dropWhile (fun c => c ≠ '/' && c ≠ '?' && c ≠ '#')).takeWhile
        (fun c => c ≠ '?' && c ≠ '#')⟩
  | none => ⟨url.data.takeWhile (fun c => c ≠ '?' && c ≠ '#')⟩

/-- Embedding of Python `os.path.join(a, b)` for POSIX paths with one
component: `b` wins when absolute; otherwise joined with a single `/`. -/
def os_path_join (a b : String) : String :=
  if b.data.head? == some '/' then b
  else if a.data.isEmpty || a.data.getLast? == some '/' then ⟨a.data ++ b.data⟩
  else ⟨a.data ++ '/' :: b.data⟩

/-- Modelled from the spec: the shape of a configuration-registry key (the
option registry, `streamlit/config.py`, is not part of this core): a
dot-separated hierarchical name such as `server.port` — alphanumeric
characters and dots, hence no underscores. -/
def isRegistryKey (k : String) : Bool :=
  k.data.all fun c => c.isAlphanum || c == '.'

/-- Errors surfaced by the `run` command: `click.BadParameter` (user-facing,
with its message) or a failure propagated unchanged from the delegated
orchestrator / bootstrap runtime. -/
inductive CliError where
  | badParameter (message : String)
  | delegate (message : String)
deriving DecidableEq, Repr

/-- Observable resource and delegation events of one `run` invocation, in
program order: temporary-directory acquisition/removal, a file written with
its content bytes, and the hand-off to the run orchestrator (`_main_run`). -/
inductive RunEvent where
  | tempDirAcquired (dir : String)
  | fileWritten (path : String) (content : List Nat)
  | orchestratorInvoked (path : String) (args : List String)
  | tempDirReleased (dir : String)
deriving DecidableEq, Repr

/-- External collaborators of `main_run`, kept abstract: `validators.url`
(URL classification), `os.path.exists`, the HTTP fetch
(`requests.get` + `raise_for_status`: either the response body bytes or a
`requests.exceptions.RequestException` message), the name of the fresh
directory `TemporaryDirectory()` yields, and the outcome of `_main_run`. -/
structure RunEnv where
  isUrl : String → Bool
  pathExists : String → Bool
  fetch : String → Except String (List Nat)
  tempDir : String
  orchestrator : String → List String → Except String Unit

/-- Embedding of `_download_remote` (cli.py:176-185) composed with the file it
populates: the destination file is opened (created empty) first; on fetch
success the body is written to it; on any `RequestException` a
`click.BadParameter` is raised whose message embeds the URL and the transport
error, leaving the (empty) file behind for the scoped directory to clean up.
Returns the file's content on success. -/
def _download_remote (env : RunEnv) (url_path : String) :
    Except CliError (List Nat) :=
  match env.fetch url_path with
  | .ok content => .ok content
  | .error e => .error (.badParameter ("Unable to fetch " ++ url_path ++ ".\n" ++ e))

/-- Embedding of `main_run` (cli.py:188-214), after click has parsed the
flags: apply the CLI config overrides, then resolve the target; a URL target
is fetched into a file inside a scoped temporary directory (`with
TemporaryDirectory()` releases the directory on every exit path, normal or
exceptional), a path target must exist or `click.BadParameter` is raised.
Returns the final configuration store, the ordered event trace, and the
outcome. -/
def main_run {V : Type} (env : RunEnv) (target : String) (args : List String)
    (kwargs : List (String × Option V)) (store : ConfigStore V) :
    ConfigStore V × List RunEvent × Except CliError Unit :=
  let store' := _apply_config_options_from_cli kwargs store
  if env.isUrl target then
    let path := urlparsePath target
    let script_path := os_path_join env.tempDir (lastSegment (stripSlashes path))
    match env.fetch target with
    | .error e =>
        (store',
         [.tempDirAcquired env.tempDir, .fileWritten script_path [],
          .tempDirReleased env.tempDir],
         .error (.badParameter ("Unable to fetch " ++ target ++ ".\n" ++ e)))
    | .ok content =>
        match env.orchestrator script_path args with
        | .ok _ =>
            (store',
             [.tempDirAcquired env.tempDir, .fileWritten script_path content,
              .orchestratorInvoked script_path args,
              .tempDirReleased env.tempDir],
             .ok ())
        | .error e =>
            (store',
             [.tempDirAcquired env.tempDir, .fileWritten script_path content,
              .orchestratorInvoked script_path args,
              .tempDirReleased env.tempDir],
             .error (.delegate e))
  else
    if env.pathExists target then
      match env.orchestrator target args with
      | .ok _ => (store', [.orchestratorInvoked target args], .ok ())
      | .error e => (store', [.orchestratorInvoked target args], .error (.delegate e))
    else
      (store', [], .error (.badParameter ("File does not exist: " ++ target)))

/-- Embedding of `click.style(text, fg=..., bold=...)`: the text wrapped in
the ANSI escape for the foreground color (when given), the bold escape (when
set), and the trailing reset. -/
def click_style (fg : Option Nat) (bold : Bool) (text : String) : String :=
  (match fg with
   | some n => "\x1b[" ++ toString n ++ "m"
   | none => "") ++
  (if bold then "\x1b[1m" else "") ++ text ++ "\x1b[0m"

/-- Observable steps of `_main_run` (cli.py:226-239), in program order. -/
inductive OrchestratorEvent where
  | setRunningFlag
  | checkActivated
  | echoNotice (text : String)
  | bootstrapRun (file : String) (commandLine : String) (args : List String)
deriving DecidableEq, Repr

/-- Modelled from the spec: `streamlit.version.should_show_new_version_notice`
(`streamlit/version.py` is not part of this core).  Per §4.6/§7 the
version-check collaborator is best-effort: any internal failure of the check
is swallowed and simply yields "no notice", never an exception. -/
def should_show_new_version_notice (outcome : Except String Bool) : Bool :=
  match outcome with
  | .ok b => b
  | .error _ => false

/-- The text of the upgrade notice (`NEW_VERSION_TEXT`, cli.py:38-51). -/
def NEW_VERSION_TEXT : String :=
  "\n  " ++ click_style (some 34) true "A new version of Streamlit is available."
    ++ "\n\n  See what's new at https://discuss.streamlit.io/c/announcements\n\n"
    ++ "  Enter the following command to upgrade:\n  "
    ++ click_style (some 34) false "$" ++ " "
    ++ click_style none true "pip install streamlit --upgrade" ++ "\n"

/-- Embedding of `_main_run` (cli.py:226-239): set the process-wide "running
with streamlit" flag, check credential activation, emit the upgrade notice
when the (best-effort) version check says a newer release exists, then
delegate to `bootstrap.run` with the file, display command line and residual
arguments.  `versionOutcome` is the raw result of the version-check
collaborator, failure included. -/
def _main_run (versionOutcome : Except String Bool) (commandLine : String)
    (file : String) (args : List String) : List OrchestratorEvent :=
  [.setRunningFlag, .checkActivated]
    ++ (if should_show_new_version_notice versionOutcome then
          [.echoNotice NEW_VERSION_TEXT]
        else [])
    ++ [.bootstrapRun file commandLine args]

/-- Observable effects of the cache subcommands: the call into
`streamlit.caching.clear_cache` and lines printed to the terminal. -/
inductive CacheEffect where
  | clearCacheCall
  | printed (line : String)
deriving DecidableEq, Repr

/-- External cache collaborators of `cache clear`:
`streamlit.caching.clear_cache` result (whether there was anything to clear)
and `streamlit.caching.get_cache_path`. -/
structure CacheEnv where
  clearResult : Bool
  cachePath : String

/-- Embedding of `cache_clear` (cli.py:271-281): invoke the cache-clear
collaborator, then print which directory was cleared, or that there was
nothing to clear. -/
def cache_clear (env : CacheEnv) : List CacheEffect :=
  [.clearCacheCall,
   .printed
     (if env.clearResult then "Cleared directory " ++ env.cachePath ++ "."
      else "Nothing to clear at " ++ env.cachePath ++ ".")]

/-- Embedding of `main_clear_cache` (cli.py:245-250): echo the styled
deprecation notice, then `ctx.invoke(cache_clear)` — run the `cache clear`
handler in the same process context with no arguments. -/
def main_clear_cache (env : CacheEnv) : List CacheEffect :=
  .printed (click_style (some 31) false "Use \x22cache clear\x22 instead.")
    :: cache_clear env

/-! ## Theorems -/

lemma toUpper_data (s : String) : s.toUpper = ⟨s.data.map Char.toUpper⟩ :=
  String.map_eq Char.toUpper s

lemma toUpper_eq_dot {c : Char} (h : c.toUpper = '.') : c = '.' := by
  unfold Char.toUpper at h
  rw [show (let n := c.toNat; if n ≥ 97 ∧ n ≤ 122 then Char.ofNat (n - 32) else c)
        = (if c.toNat ≥ 97 ∧ c.toNat ≤ 122 then Char.ofNat (c.toNat - 32) else c)
      from rfl] at h
  split at h
  next hn =>
    exfalso
    have hv : (c.toNat - 32).isValidChar := by left; omega
    have h46 : (Char.ofNat (c.toNat - 32)).toNat = 46 := by rw [h]; decide
    rw [Char.ofNat, dif_pos hv] at h46
    simp only [Char.ofNatAux, Char.toNat, UInt32.toNat, BitVec.toNat_ofNatLt] at h46 hn
    omega
  next hn => exact h

lemma toUpper_ite_dot (c : Char) :
    (if c = '.' then '_' else c).toUpper = if c.toUpper = '.' then '_' else c.toUpper := by
  by_cases hc : c = '.'
  · subst hc
    rw [if_pos rfl, show Char.toUpper '.' = '.' from by decide, if_pos rfl]
    decide
  · rw [if_neg hc, if_neg (fun h => hc (toUpper_eq_dot h))]

lemma toUpper_replaceChar (s : String) :
    (replaceChar '.' '_' s).toUpper = replaceChar '.' '_' s.toUpper := by
  simp only [replaceChar, toUpper_data, List.map_map]
  exact congrArg String.mk (List.map_congr_left fun c _ => toUpper_ite_dot c)

/-- C1: for every `OptionDefinition` with key `k`, the Translator produces
flag name exactly `--` + `k` (dots preserved), destination parameter name `k`
with dots replaced by underscores, and environment variable name
`STREAMLIT_CONFIG_` + `k` uppercased with dots replaced by underscores; for
deprecated options the help text is the description augmented with the
deprecation text and date (and is the plain description otherwise). -/
theorem translator_flagspec_correct (co : ConfigOption) :
    (_convert_config_option_to_click_option co).option = "--" ++ co.key ∧
    (_convert_config_option_to_click_option co).param = replaceChar '.' '_' co.key ∧
    (_convert_config_option_to_click_option co).envvar
      = "STREAMLIT_CONFIG_" ++ replaceChar '.' '_' co.key.toUpper ∧
    (co.deprecated = true →
      (_convert_config_option_to_click_option co).description
        = co.description ++ "\n " ++ co.deprecation_text ++ " - " ++ co.deprecation_date) ∧
    (co.deprecated = false →
      (_convert_config_option_to_click_option co).description = co.description) := by
  refine ⟨rfl, rfl, ?_, ?_, ?_⟩
  · show "STREAMLIT_CONFIG_" ++ (replaceChar '.' '_' co.key).toUpper = _
    rw [toUpper_replaceChar]
  · intro h
    simp only [_convert_config_option_to_click_option, h, if_pos]
  · intro h
    simp only [_convert_config_option_to_click_option, h]
    rfl

/-- Witness for C1 at the concrete deprecated option `server.port`. -/
theorem translator_flagspec_correct_witness :
    (_convert_config_option_to_click_option
        ⟨"server.port", "Port.", true, "Deprecated.", "2019-09-01"⟩).option
      = "--server.port" ∧
    (_convert_config_option_to_click_option
        ⟨"server.port", "Port.", true, "Deprecated.", "2019-09-01"⟩).param
      = "server_port" ∧
    (_convert_config_option_to_click_option
        ⟨"server.port", "Port.", true, "Deprecated.", "2019-09-01"⟩).envvar
      = "STREAMLIT_CONFIG_SERVER_PORT" ∧
    (_convert_config_option_to_click_option
        ⟨"server.port", "Port.", true, "Deprecated.", "2019-09-01"⟩).description
      = "Port.\n Deprecated. - 2019-09-01" := by
  have h := translator_flagspec_correct
    ⟨"server.port", "Port.", true, "Deprecated.", "2019-09-01"⟩
  exact ⟨h.1.trans (by decide), h.2.1.trans (by decide),
    h.2.2.1.trans (by simp only [toUpper_data]; decide),
    (h.2.2.2.1 rfl).trans (by decide)⟩

lemma applyCli_cons {V : Type} (q : String × Option V) (rest : List (String × Option V))
    (store : ConfigStore V) :
    _apply_config_options_from_cli (q :: rest) store
      = _apply_config_options_from_cli rest
          (match q.2 with
           | some v => _set_option store (replaceChar '_' '.' q.1) v "cli call option"
           | none => store) :=
  rfl

lemma applyCli_untouched {V : Type} (kwargs : List (String × Option V))
    (store : ConfigStore V) (k : String)
    (h : ∀ p v, (p, some v) ∈ kwargs → replaceChar '_' '.' p ≠ k) :
    _apply_config_options_from_cli kwargs store k = store k := by
  induction kwargs generalizing store with
  | nil => rfl
  | cons q rest ih =>
      obtain ⟨p, vo⟩ := q
      rw [applyCli_cons]
      cases vo with
      | none => exact ih store fun p' v' hm => h p' v' (List.mem_cons_of_mem _ hm)
      | some v =>
          rw [ih _ fun p' v' hm => h p' v' (List.mem_cons_of_mem _ hm)]
          exact if_neg fun he => h p v (List.mem_cons_self _ _) he.symm

lemma applyCli_writes {V : Type} (kwargs : List (String × Option V))
    (store : ConfigStore V) (p₀ : String) (v₀ : V)
    (hmem : (p₀, some v₀) ∈ kwargs)
    (hnodup : (kwargs.map fun q => replaceChar '_' '.' q.1).Nodup) :
    _apply_config_options_from_cli kwargs store (replaceChar '_' '.' p₀)
      = some (v₀, "cli call option") := by
  induction kwargs generalizing store with
  | nil => cases hmem
  | cons q rest ih =>
      rw [List.map_cons, List.nodup_cons] at hnodup
      rcases List.mem_cons.mp hmem with heq | hmem'
      · rw [applyCli_cons, ← heq]
        rw [applyCli_untouched rest _ _ ?hrest]
        · exact if_pos rfl
        case hrest =>
          intro p v hm he
          exact hnodup.1 (heq ▸ he ▸ List.mem_map_of_mem (fun q => replaceChar '_' '.' q.1) hm)
      · rw [applyCli_cons]
        exact ih _ hmem' hnodup.2

/-- C2: the Config Override Applier writes into the configuration store
exactly those entries of the parsed-flag mapping whose value is non-null,
each recorded under its dotted key with its value and provenance
`"cli call option"`; keys not targeted by any supplied (non-null) entry are
left exactly as the store had them. -/
theorem config_override_applier_correct {V : Type} (kwargs : List (String × Option V))
    (store : ConfigStore V)
    (hnodup : (kwargs.map fun q => replaceChar '_' '.' q.1).Nodup) :
    (∀ p v, (p, some v) ∈ kwargs →
      _apply_config_options_from_cli kwargs store (replaceChar '_' '.' p)
        = some (v, "cli call option")) ∧
    (∀ k, (∀ p v, (p, some v) ∈ kwargs → replaceChar '_' '.' p ≠ k) →
      _apply_config_options_from_cli kwargs store k = store k) :=
  ⟨fun p v hm => applyCli_writes kwargs store p v hm hnodup,
   fun k h => applyCli_untouched kwargs store k h⟩

/-- Witness for C2: two flags, one supplied and one absent; the supplied one
is written under its dotted key with the CLI provenance tag, the absent one
and unrelated keys are untouched. -/
theorem config_override_applier_correct_witness :
    _apply_config_options_from_cli
        [("server_port", some 8080), ("server_headless", (none : Option Nat))]
        (fun _ => none) "server.port" = some (8080, "cli call option") ∧
    _apply_config_options_from_cli
        [("server_port", some 8080), ("server_headless", (none : Option Nat))]
        (fun _ => none) "server.headless" = none := by
  have h := config_override_applier_correct
    [("server_port", some 8080), ("server_headless", (none : Option Nat))]
    (fun _ => none) (by decide)
  refine ⟨h.1 "server_port" 8080 (by decide), h.2 "server.headless" ?_⟩
  intro p v hm
  simp only [List.mem_cons, List.not_mem_nil, or_false, Prod.mk.injEq] at hm
  rcases hm with ⟨rfl, hv⟩ | ⟨rfl, hv⟩
  · decide
  · cases hv

lemma roundTrip_pointwise {c : Char} (h : (c.isAlphanum || c == '.') = true) :
    (if (if c = '.' then '_' else c) = '_' then '.' else if c = '.' then '_' else c) = c := by
  by_cases hc : c = '.'
  · subst hc; decide
  · rw [if_neg hc, if_neg ?hne]
    case hne =>
      intro he
      subst he
      exact absurd h (by decide)

lemma replaceChar_round_trip (k : String) (h : isRegistryKey k = true) :
    replaceChar '_' '.' (replaceChar '.' '_' k) = k := by
  simp only [replaceChar, List.map_map]
  refine congrArg String.mk (((List.map_congr_left ?_).trans (List.map_id k.data)))
  intro c hc
  exact roundTrip_pointwise (List.all_eq_true.mp h c hc)

/-- C7: for every registry key, deriving the destination parameter name
(dots to underscores) and then applying the Config Override Applier's reverse
translation (underscores to dots) yields the key again; consequently a value
supplied for that flag is written back to exactly the option key it was
derived from. -/
theorem cli_flag_key_round_trip {V : Type} (co : ConfigOption)
    (h : isRegistryKey co.key = true) (v : V) (store : ConfigStore V) :
    replaceChar '_' '.' (_convert_config_option_to_click_option co).param = co.key ∧
    _apply_config_options_from_cli
        [((_convert_config_option_to_click_option co).param, some v)] store co.key
      = some (v, "cli call option") := by
  have h1 : replaceChar '_' '.' (_convert_config_option_to_click_option co).param
      = co.key := replaceChar_round_trip co.key h
  refine ⟨h1, ?_⟩
  show _set_option store
      (replaceChar '_' '.' (_convert_config_option_to_click_option co).param) v
      "cli call option" co.key = _
  rw [h1]
  exact if_pos rfl

/-- Witness for C7 at the key `server.port`. -/
theorem cli_flag_key_round_trip_witness :
    replaceChar '_' '.'
        (_convert_config_option_to_click_option ⟨"server.port", "", false, "", ""⟩).param
      = "server.port" ∧
    _apply_config_options_from_cli
        [((_convert_config_option_to_click_option ⟨"server.port", "", false, "", ""⟩).param,
          some 8080)]
        (fun _ => (none : Option (Nat × String))) "server.port"
      = some (8080, "cli call option") := by
  have h := cli_flag_key_round_trip (V := Nat)
    ⟨"server.port", "", false, "", ""⟩ (by decide) 8080 (fun _ => none)
  exact ⟨h.1, h.2⟩

/-- C3: with a target not classified as a URL, an existing path is passed to
the Run Orchestrator exactly unchanged (and nothing else happens); a
non-existent path makes the command fail with `BadParameter` naming the
missing path, and the orchestrator is never invoked. -/
theorem target_resolver_local_path {V : Type} (env : RunEnv) (target : String)
    (args : List String) (kwargs : List (String × Option V)) (store : ConfigStore V)
    (hurl : env.isUrl target = false) :
    (env.pathExists target = true →
      (main_run env target args kwargs store).2.1
        = [RunEvent.orchestratorInvoked target args]) ∧
    (env.pathExists target = false →
      (main_run env target args kwargs store).2.2
        = Except.error (CliError.badParameter ("File does not exist: " ++ target)) ∧
      ∀ p a, RunEvent.orchestratorInvoked p a ∉ (main_run env target args kwargs store).2.1) := by
  constructor
  · intro hex
    cases horch : env.orchestrator target args <;> simp [main_run, hurl, hex, horch]
  · intro hex
    refine ⟨?_, ?_⟩ <;> simp [main_run, hurl, hex]

/-- Witness for C3: a missing local path fails with `BadParameter` naming it,
and an existing one is handed to the orchestrator unchanged. -/
theorem target_resolver_local_path_witness :
    (main_run ⟨fun _ => false, fun _ => false, fun _ => Except.error "", "/tmp/t",
        fun _ _ => Except.ok ()⟩ "missing.py" []
        ([] : List (String × Option Nat)) (fun _ => none)).2.2
      = Except.error (CliError.badParameter "File does not exist: missing.py") ∧
    (main_run ⟨fun _ => false, fun _ => true, fun _ => Except.error "", "/tmp/t",
        fun _ _ => Except.ok ()⟩ "app.py" ["x"]
        ([] : List (String × Option Nat)) (fun _ => none)).2.1
      = [RunEvent.orchestratorInvoked "app.py" ["x"]] := by
  constructor
  · exact ((target_resolver_local_path
      ⟨fun _ => false, fun _ => false, fun _ => Except.error "", "/tmp/t",
        fun _ _ => Except.ok ()⟩ "missing.py" [] [] (fun _ => none) rfl).2 rfl).1.trans
      (congrArg (fun s => (Except.error (CliError.badParameter s) : Except CliError Unit))
        (by decide))
  · exact (target_resolver_local_path
      ⟨fun _ => false, fun _ => true, fun _ => Except.error "", "/tmp/t",
        fun _ _ => Except.ok ()⟩ "app.py" ["x"] [] (fun _ => none) rfl).1 rfl

/-- C4: with a URL target whose fetch succeeds, the run acquires a fresh
temporary directory, creates inside it a file named after the URL path's last
segment (slashes stripped), fills it with exactly the fetched bytes, and
hands that file to the orchestrator. -/
theorem target_resolver_url_success {V : Type} (env : RunEnv) (target : String)
    (args : List String) (kwargs : List (String × Option V)) (store : ConfigStore V)
    (hurl : env.isUrl target = true) (content : List Nat)
    (hfetch : env.fetch target = Except.ok content) :
    (main_run env target args kwargs store).2.1
      = [RunEvent.tempDirAcquired env.tempDir,
         RunEvent.fileWritten
           (os_path_join env.tempDir (lastSegment (stripSlashes (urlparsePath target))))
           content,
         RunEvent.orchestratorInvoked
           (os_path_join env.tempDir (lastSegment (stripSlashes (urlparsePath target))))
           args,
         RunEvent.tempDirReleased env.tempDir] := by
  cases horch : env.orchestrator
      (os_path_join env.tempDir (lastSegment (stripSlashes (urlparsePath target)))) args <;>
    simp [main_run, hurl, hfetch, horch]

/-- Witness for C4: fetching `https://example.com/scripts/app.py` into temp
directory `/tmp/scratch` writes the bytes to `/tmp/scratch/app.py`. -/
theorem target_resolver_url_success_witness :
    (main_run ⟨fun _ => true, fun _ => false, fun _ => Except.ok [104, 105], "/tmp/scratch",
        fun _ _ => Except.ok ()⟩ "https://example.com/scripts/app.py" []
        ([] : List (String × Option Nat)) (fun _ => none)).2.1
      = [RunEvent.tempDirAcquired "/tmp/scratch",
         RunEvent.fileWritten "/tmp/scratch/app.py" [104, 105],
         RunEvent.orchestratorInvoked "/tmp/scratch/app.py" [],
         RunEvent.tempDirReleased "/tmp/scratch"] :=
  (target_resolver_url_success
    ⟨fun _ => true, fun _ => false, fun _ => Except.ok [104, 105], "/tmp/scratch",
      fun _ _ => Except.ok ()⟩ "https://example.com/scripts/app.py" [] [] (fun _ => none)
    rfl [104, 105] rfl).trans (by decide)

/-- C5: a failing fetch (transport error or non-success HTTP status) makes
the run fail with `BadParameter`; the message contains both the URL and the
underlying transport error, and the script is never passed to the
orchestrator. -/
theorem remote_fetch_failure {V : Type} (env : RunEnv) (target : String)
    (args : List String) (kwargs : List (String × Option V)) (store : ConfigStore V)
    (hurl : env.isUrl target = true) (e : String)
    (hfetch : env.fetch target = Except.error e) :
    (main_run env target args kwargs store).2.2
      = Except.error (CliError.badParameter ("Unable to fetch " ++ target ++ ".\n" ++ e)) ∧
    (∃ s₁ s₂, "Unable to fetch " ++ target ++ ".\n" ++ e = s₁ ++ target ++ s₂) ∧
    (∃ s₃, "Unable to fetch " ++ target ++ ".\n" ++ e = s₃ ++ e) ∧
    ∀ p a, RunEvent.orchestratorInvoked p a ∉ (main_run env target args kwargs store).2.1 := by
  refine ⟨?_, ⟨"Unable to fetch ", ".\n" ++ e, String.append_assoc _ _ _⟩,
    ⟨"Unable to fetch " ++ target ++ ".\n", rfl⟩, ?_⟩
  · simp [main_run, hurl, hfetch]
  · intro p a
    simp [main_run, hurl, hfetch]

/-- Witness for C5: a 404 on `https://example.com/nope.py` surfaces as
`BadParameter` with the URL and the transport message, with no orchestrator
hand-off. -/
theorem remote_fetch_failure_witness :
    (main_run ⟨fun _ => true, fun _ => false, fun _ => Except.error "404 Client Error",
        "/tmp/scratch", fun _ _ => Except.ok ()⟩ "https://example.com/nope.py" []
        ([] : List (String × Option Nat)) (fun _ => none)).2.2
      = Except.error
          (CliError.badParameter "Unable to fetch https://example.com/nope.py.\n404 Client Error") ∧
    RunEvent.orchestratorInvoked "/tmp/scratch/nope.py" []
      ∉ (main_run ⟨fun _ => true, fun _ => false, fun _ => Except.error "404 Client Error",
          "/tmp/scratch", fun _ _ => Except.ok ()⟩ "https://example.com/nope.py" []
          ([] : List (String × Option Nat)) (fun _ => none)).2.1 := by
  have h := remote_fetch_failure
    ⟨fun _ => true, fun _ => false, fun _ => Except.error "404 Client Error",
      "/tmp/scratch", fun _ _ => Except.ok ()⟩ "https://example.com/nope.py" []
    ([] : List (String × Option Nat)) (fun _ => none) rfl "404 Client Error" rfl
  exact ⟨h.1.trans
    (congrArg (fun s => (Except.error (CliError.badParameter s) : Except CliError Unit))
      (by decide)),
    h.2.2.2 "/tmp/scratch/nope.py" []⟩

/-- C6: with a URL target, the scoped temporary directory is acquired first
and released last on every path — fetch success, fetch failure, or a later
orchestrator failure. -/
theorem temp_dir_scoped_release {V : Type} (env : RunEnv) (target : String)
    (args : List String) (kwargs : List (String × Option V)) (store : ConfigStore V)
    (hurl : env.isUrl target = true) :
    ∃ mid, (main_run env target args kwargs store).2.1
      = RunEvent.tempDirAcquired env.tempDir
          :: mid ++ [RunEvent.tempDirReleased env.tempDir] := by
  cases hf : env.fetch target with
  | error e =>
      exact ⟨[RunEvent.fileWritten
          (os_path_join env.tempDir (lastSegment (stripSlashes (urlparsePath target)))) []],
        by simp [main_run, hurl, hf]⟩
  | ok content =>
      cases horch : env.orchestrator
          (os_path_join env.tempDir (lastSegment (stripSlashes (urlparsePath target)))) args with
      | ok u =>
          exact ⟨[RunEvent.fileWritten
              (os_path_join env.tempDir (lastSegment (stripSlashes (urlparsePath target))))
              content,
            RunEvent.orchestratorInvoked
              (os_path_join env.tempDir (lastSegment (stripSlashes (urlparsePath target))))
              args],
            by simp [main_run, hurl, hf, horch]⟩
      | error e =>
          exact ⟨[RunEvent.fileWritten
              (os_path_join env.tempDir (lastSegment (stripSlashes (urlparsePath target))))
              content,
            RunEvent.orchestratorInvoked
              (os_path_join env.tempDir (lastSegment (stripSlashes (urlparsePath target))))
              args],
            by simp [main_run, hurl, hf, horch]⟩

/-- Witness for C6: the trace of a URL run whose orchestrator fails still
starts by acquiring and ends by releasing the temporary directory. -/
theorem temp_dir_scoped_release_witness :
    ∃ mid, (main_run ⟨fun _ => true, fun _ => false, fun _ => Except.ok [1], "/tmp/d",
        fun _ _ => Except.error "boom"⟩ "https://h/a/b.py" []
        ([] : List (String × Option Nat)) (fun _ => none)).2.1
      = RunEvent.tempDirAcquired "/tmp/d" :: mid ++ [RunEvent.tempDirReleased "/tmp/d"] :=
  temp_dir_scoped_release
    ⟨fun _ => true, fun _ => false, fun _ => Except.ok [1], "/tmp/d",
      fun _ _ => Except.error "boom"⟩ "https://h/a/b.py" [] [] (fun _ => none) rfl

/-- C10: when the target is a non-existent local path, the `BadParameter`
failure is raised only after `_apply_config_options_from_cli` has run: the
final configuration store is the overridden one, with every supplied non-null
flag already written, not the store the command started from. -/
theorem run_failure_after_overrides {V : Type} (env : RunEnv) (target : String)
    (args : List String) (kwargs : List (String × Option V)) (store : ConfigStore V)
    (hurl : env.isUrl target = false) (hex : env.pathExists target = false)
    (hnodup : (kwargs.map fun q => replaceChar '_' '.' q.1).Nodup) :
    (main_run env target args kwargs store).2.2
      = Except.error (CliError.badParameter ("File does not exist: " ++ target)) ∧
    (main_run env target args kwargs store).1 = _apply_config_options_from_cli kwargs store ∧
    ∀ p v, (p, some v) ∈ kwargs →
      (main_run env target args kwargs store).1 (replaceChar '_' '.' p)
        = some (v, "cli call option") := by
  have h1 : (main_run env target args kwargs store).1
      = _apply_config_options_from_cli kwargs store := by
    simp [main_run, hurl, hex]
  refine ⟨by simp [main_run, hurl, hex], h1, fun p v hm => ?_⟩
  rw [h1]
  exact applyCli_writes kwargs store p v hm hnodup

/-- Witness for C10: a run of a missing path with `--server.port 8080`
supplied fails, yet the store already holds the override. -/
theorem run_failure_after_overrides_witness :
    (main_run ⟨fun _ => false, fun _ => false, fun _ => Except.error "", "/tmp/t",
        fun _ _ => Except.ok ()⟩ "missing.py" [] [("server_port", some 8080)]
        (fun _ => (none : Option (Nat × String)))).2.2
      = Except.error (CliError.badParameter "File does not exist: missing.py") ∧
    (main_run ⟨fun _ => false, fun _ => false, fun _ => Except.error "", "/tmp/t",
        fun _ _ => Except.ok ()⟩ "missing.py" [] [("server_port", some 8080)]
        (fun _ => (none : Option (Nat × String)))).1 "server.port"
      = some (8080, "cli call option") := by
  have h := run_failure_after_overrides
    ⟨fun _ => false, fun _ => false, fun _ => Except.error "", "/tmp/t",
      fun _ _ => Except.ok ()⟩ "missing.py" [] [("server_port", some 8080)]
    (fun _ => none) rfl rfl (by decide)
  exact ⟨h.1.trans
    (congrArg (fun s => (Except.error (CliError.badParameter s) : Except CliError Unit))
      (by decide)),
    h.2.2 "server_port" 8080 (by decide)⟩

/-- C8: the upgrade notice is best-effort — whatever the version-check
collaborator's outcome (a boolean answer or an internal failure), `_main_run`
still delegates to the bootstrap entry point, and a failed check surfaces no
error: the trace is exactly the no-notice trace. -/
theorem version_notice_best_effort (outcome : Except String Bool)
    (commandLine file : String) (args : List String) :
    OrchestratorEvent.bootstrapRun file commandLine args
        ∈ _main_run outcome commandLine file args ∧
    ∀ e, outcome = Except.error e →
      _main_run outcome commandLine file args
        = [OrchestratorEvent.setRunningFlag, OrchestratorEvent.checkActivated,
           OrchestratorEvent.bootstrapRun file commandLine args] := by
  constructor
  · simp [_main_run]
  · rintro e rfl
    simp [_main_run, should_show_new_version_notice]

/-- Witness for C8: with the version check failing on a network error, the
run still reaches bootstrap and no notice or error appears. -/
theorem version_notice_best_effort_witness :
    OrchestratorEvent.bootstrapRun "app.py" "streamlit run app.py" []
        ∈ _main_run (Except.error "network down") "streamlit run app.py" "app.py" [] ∧
    _main_run (Except.error "network down") "streamlit run app.py" "app.py" []
      = [OrchestratorEvent.setRunningFlag, OrchestratorEvent.checkActivated,
         OrchestratorEvent.bootstrapRun "app.py" "streamlit run app.py" []] := by
  have h := version_notice_best_effort (Except.error "network down")
    "streamlit run app.py" "app.py" []
  exact ⟨h.1, h.2 "network down" rfl⟩

/-- C9: the deprecated `clear_cache` subcommand first emits the styled
deprecation notice naming `cache clear`, then produces exactly the same
effects as invoking `cache clear` directly — the cache-clear call followed by
the "cleared" or "nothing to clear" message. -/
theorem clear_cache_alias_equiv (env : CacheEnv) :
    main_clear_cache env
      = CacheEffect.printed (click_style (some 31) false "Use \"cache clear\" instead.")
          :: cache_clear env ∧
    (env.clearResult = true →
      cache_clear env
        = [CacheEffect.clearCacheCall,
           CacheEffect.printed ("Cleared directory " ++ env.cachePath ++ ".")]) ∧
    (env.clearResult = false →
      cache_clear env
        = [CacheEffect.clearCacheCall,
           CacheEffect.printed ("Nothing to clear at " ++ env.cachePath ++ ".")]) := by
  refine ⟨rfl, fun h => ?_, fun h => ?_⟩ <;> simp [cache_clear, h]

/-- Witness for C9: with a cache at `/home/u/.streamlit/cache` that has
something to clear, `clear_cache` prints the red notice and then behaves as
`cache clear`. -/
theorem clear_cache_alias_equiv_witness :
    main_clear_cache ⟨true, "/home/u/.streamlit/cache"⟩
      = [CacheEffect.printed "\x1b[31mUse \"cache clear\" instead.\x1b[0m",
         CacheEffect.clearCacheCall,
         CacheEffect.printed "Cleared directory /home/u/.streamlit/cache."] := by
  have h := clear_cache_alias_equiv ⟨true, "/home/u/.streamlit/cache"⟩
  rw [h.1, h.2.1 rfl]
  decide

end StreamlitCli
